import Mathlib

/-!
Shallow embedding of the foerdermittel scraping pipeline
(`foerdermittel_scraper.py`, `foerdermittel_analyzer.py`,
`shared/directus_client.py`).

Python dictionaries holding JSON scalars are modelled as association
lists over a value type `Val`; the Directus backend is modelled through
the operations the scraper issues against it (`Op`), and Python
exceptions as an explicit `Except PyError` result.  SHA-256 is
abstracted as a `String → String` parameter (the code only compares
digests for equality).
-/

namespace EventScraper

/-- JSON-style scalar value stored in a Python dict.  `vnull` doubles as
Python `None` (also what `dict.get` returns for a missing key).  Nested
lists/dicts that some fields hold are abstracted into these scalars;
no claim depends on their inner structure. -/
inductive Val where
  | vnull
  | vbool (b : Bool)
  | vint (n : Int)
  | vstr (s : String)
deriving DecidableEq, Repr

/-- Python truthiness of a scalar value (`if v:`). -/
def Val.truthy : Val → Bool
  | .vnull => false
  | .vbool b => b
  | .vint n => n != 0
  | .vstr s => s != ""

/-- Numeric view used by Python `==`, under which `True == 1`. -/
def Val.asNum : Val → Option Int
  | .vbool b => some (cond b 1 0)
  | .vint n => some n
  | _ => none

/-- Python `==` on scalar values (numeric cross-type equality included). -/
def pyEq (a b : Val) : Bool :=
  match a.asNum, b.asNum with
  | some x, some y => x == y
  | _, _ => a == b

/-- Python exceptions that the modelled code can raise. -/
inductive PyError where
  | backendError (msg : String)
  | attributeError (name : String)
  | keyError (key : String)
  | typeError
deriving DecidableEq, Repr

/-- Python `v + 1`; a `TypeError` on non-numeric values. -/
def valAddOne : Val → Except PyError Val
  | .vint n => .ok (.vint (n + 1))
  | .vbool b => .ok (.vint (cond b 1 0 + 1))
  | _ => .error .typeError

deriving instance DecidableEq for Except

/-- A Python dict with string keys (association list, first key wins). -/
abbrev Dict := List (String × Val)

/-- Association-list lookup (`d[k]` / `d.get(k)` access path). -/
def alookup {α : Type} : List (String × α) → String → Option α
  | [], _ => none
  | (k', v) :: rest, k => if k' = k then some v else alookup rest k

/-- Association-list deletion (`del d[k]`). -/
def adelete {α : Type} (d : List (String × α)) (k : String) : List (String × α) :=
  d.filter (fun kv => kv.1 ≠ k)

/-- Python `d.get(k, dflt)`. -/
def dgetD (d : Dict) (k : String) (dflt : Val) : Val :=
  (alookup d k).getD dflt

/-- Python `d.get(k)` (missing key gives `None`). -/
def pyGet (d : Dict) (k : String) : Val :=
  dgetD d k .vnull

/-- Python dict assignment `d[k] = v`: replace in place, else append. -/
def dset : Dict → String → Val → Dict
  | [], k, v => [(k, v)]
  | (k', v') :: rest, k, v =>
      if k' = k then (k, v) :: rest else (k', v') :: dset rest k v

/-- Apply an update payload to a stored record, key by key (the effect
of a Directus PATCH on the stored item's fields). -/
def applyUpdate (stored : Dict) : Dict → Dict
  | [] => stored
  | (k, v) :: rest => applyUpdate (dset stored k v) rest

/-- Serialization of a scalar as `json.dumps` renders it. -/
def Val.dumps : Val → String
  | .vnull => "null"
  | .vbool b => cond b "true" "false"
  | .vint n => toString n
  | .vstr s => "\"" ++ s ++ "\""

/-- Serialization of a dict as `json.dumps` (default separators). -/
def Dict.dumps (d : Dict) : String :=
  "\x7b" ++ String.intercalate ", "
    (d.map (fun kv => "\"" ++ kv.1 ++ "\": " ++ kv.2.dumps)) ++ "\x7d"

theorem alookup_dset (d : Dict) (k k' : String) (v : Val) :
    alookup (dset d k v) k' = if k = k' then some v else alookup d k' := by
  induction d with
  | nil => simp [dset, alookup]
  | cons kv rest ih =>
      obtain ⟨k₀, v₀⟩ := kv
      by_cases h0 : k₀ = k
      · subst h0
        by_cases h : k₀ = k'
        · subst h
          simp [dset, alookup]
        · simp [dset, alookup, h]
      · by_cases h : k₀ = k'
        · subst h
          have hkk : ¬k = k₀ := fun he => h0 he.symm
          simp [dset, alookup, h0, hkk]
        · simp [dset, alookup, h0, h, ih]

theorem alookup_adelete_self {α : Type} (d : List (String × α)) (k : String) :
    alookup (adelete d k) k = none := by
  induction d with
  | nil => simp [adelete, alookup]
  | cons kv rest ih =>
      by_cases h : kv.1 = k
      · simpa [adelete, h] using ih
      · simpa [adelete, alookup, h] using ih

theorem alookup_applyUpdate_not_mem (stored : Dict) (p : Dict) (k : String)
    (hk : k ∉ p.map Prod.fst) :
    alookup (applyUpdate stored p) k = alookup stored k := by
  induction p generalizing stored with
  | nil => rfl
  | cons kv rest ih =>
      obtain ⟨k₀, v₀⟩ := kv
      simp only [List.map_cons, List.mem_cons, not_or] at hk
      rw [applyUpdate, ih _ hk.2, alookup_dset, if_neg (fun h => hk.1 h.symm)]

theorem alookup_applyUpdate_mem (stored : Dict) (p : Dict) (k : String) (v : Val)
    (hv : alookup p k = some v) (hnd : (p.map Prod.fst).Nodup) :
    alookup (applyUpdate stored p) k = some v := by
  induction p generalizing stored with
  | nil => simp [alookup] at hv
  | cons kv rest ih =>
      obtain ⟨k₀, v₀⟩ := kv
      simp only [List.map_cons, List.nodup_cons] at hnd
      rw [applyUpdate]
      by_cases h : k₀ = k
      · subst h
        have hv' : v₀ = v := by simpa [alookup] using hv
        subst hv'
        rw [alookup_applyUpdate_not_mem _ _ _ hnd.1, alookup_dset, if_pos rfl]
      · simp only [alookup, if_neg h] at hv
        exact ih (dset stored k₀ v₀) hv hnd.2

/-- Classification status returned by `check_duplicate_or_changed`
('new' / 'unchanged' / 'changed'). -/
inductive Status where
  | statusNew
  | unchanged
  | changed
deriving DecidableEq, Repr

/-- The tuple `(status, existing_item_id, previous_hash)` returned by
`check_duplicate_or_changed`; Python `None` is `Val.vnull`. -/
structure ClassifyResult where
  status : Status
  existing_id : Val
  previous_hash : Val
deriving DecidableEq, Repr

/-- A write the scraper issues against the Directus backend. -/
inductive Op where
  | createItem (collection : String) (data : Dict)
  | updateItem (collection : String) (item_id : Val) (data : Dict)
deriving DecidableEq, Repr

/-- `FoerdermittelScraper.collection_name`. -/
def collection_name : String := "foerdermittel_scraped_data"

/-- `calculate_content_hash` (shared/directus_client.py): the SHA-256
hex digest of the content.  The digest function itself is a parameter
of the model; the code only compares digests for equality. -/
def calculate_content_hash (sha256_hexdigest : String → String)
    (content : String) : String :=
  sha256_hexdigest content

/-- A configured backend client as the call sites of
`FoerdermittelScraper` use it (Python resolves `get_item_by_url` by
duck typing at the call).  Arguments: collection, url; the read may
raise, an item may be absent. -/
abbrev UrlLookup := String → String → Except PyError (Option Dict)

/-- `FoerdermittelScraper.check_duplicate_or_changed(content, url)`:
hash the content, look the URL up in the backend (when a client is
configured), and classify as new / unchanged / changed. -/
def check_duplicate_or_changed (sha256 : String → String)
    (client : Option UrlLookup) (content url : String) :
    Except PyError ClassifyResult :=
  let content_hash := calculate_content_hash sha256 content
  match client with
  | some get_item_by_url =>
    match get_item_by_url collection_name url with
    | .error e => .error e
    | .ok (some existing_item) =>
      if existing_item = ([] : Dict) then
        .ok ⟨.statusNew, .vnull, .vnull⟩
      else
        match alookup existing_item "id" with
        | none => .error (.keyError "id")
        | some item_id =>
          let previous_hash := pyGet existing_item "content_hash"
          if pyEq previous_hash (.vstr content_hash) then
            .ok ⟨.unchanged, item_id, previous_hash⟩
          else
            .ok ⟨.changed, item_id, previous_hash⟩
    | .ok none => .ok ⟨.statusNew, .vnull, .vnull⟩
  | none => .ok ⟨.statusNew, .vnull, .vnull⟩

/-- `existing_item.get('check_count', 0) + 1 if existing_item else 1`
in `save_to_directus` (an empty dict is falsy in Python). -/
def check_count_next (existing_item : Option Dict) : Except PyError Val :=
  match existing_item with
  | some item =>
      if item = ([] : Dict) then .ok (.vint 1)
      else valAddOne (dgetD item "check_count" (.vint 0))
  | none => .ok (.vint 1)

/-- The `directus_data` dict built by the `status == 'new'` branch of
`save_to_directus`. -/
def new_item_payload (now : String) (program_data : Dict)
    (content_hash : String) : Dict :=
  [("url", pyGet program_data "url"),
   ("source_name", pyGet program_data "source_name"),
   ("content_hash", .vstr content_hash),
   ("raw_content", .vstr program_data.dumps),
   ("scraped_at", .vstr now),
   ("last_checked_at", .vstr now),
   ("last_seen_at", .vstr now),
   ("processed", .vbool false),
   ("processing_status", .vstr "pending"),
   ("is_active", .vbool true),
   ("check_count", .vint 1)]

/-- The `update_data` dict built by the `status == 'unchanged'` branch
of `save_to_directus`. -/
def unchanged_payload (now : String) (cc : Val) : Dict :=
  [("last_checked_at", .vstr now),
   ("last_seen_at", .vstr now),
   ("check_count", cc)]

/-- The `update_data` dict built by the `status == 'changed'` branch of
`save_to_directus`. -/
def changed_payload (now : String) (program_data : Dict)
    (content_hash : String) (previous_hash cc : Val) : Dict :=
  [("previous_content_hash", previous_hash),
   ("content_hash", .vstr content_hash),
   ("raw_content", .vstr program_data.dumps),
   ("scraped_at", .vstr now),
   ("last_checked_at", .vstr now),
   ("last_seen_at", .vstr now),
   ("change_detected_at", .vstr now),
   ("processed", .vbool false),
   ("processing_status", .vstr "pending_update"),
   ("check_count", cc)]

/-- `FoerdermittelScraper.save_to_directus` with a configured client:
the backend write each status branch issues.  Backend failures inside
the branches are caught and logged by the code, so the emitted
operation is the branch's observable effect. -/
def save_to_directus (now : String) (program_data : Dict)
    (content_hash : String) (status : Status) (existing_id : Val)
    (previous_hash : Val) (existing_item : Option Dict) :
    Except PyError Op :=
  match status with
  | .statusNew =>
      .ok (.createItem collection_name
        (new_item_payload now program_data content_hash))
  | .unchanged => do
      let cc ← check_count_next existing_item
      .ok (.updateItem collection_name existing_id (unchanged_payload now cc))
  | .changed => do
      let cc ← check_count_next existing_item
      .ok (.updateItem collection_name existing_id
        (changed_payload now program_data content_hash previous_hash cc))

/-- The days-since-last-seen computation in `mark_removed_programs`:
falsy `last_seen_at` (missing, None, empty) gives 999; a parse failure
or a non-string value (caught `except Exception`) gives 999.  The
wall-clock/parser pair is abstracted as `daysSince`. -/
def days_since_last_seen (daysSince : String → Option Int)
    (program : Dict) : Int :=
  let v := pyGet program "last_seen_at"
  if v.truthy then
    match v with
    | .vstr s => (daysSince s).getD 999
    | _ => 999
  else 999

/-- The update payload written when a program is marked removed. -/
def removal_payload (now : String) : Dict :=
  [("is_active", .vbool false),
   ("last_checked_at", .vstr now),
   ("processing_status", .vstr "removed")]

/-- The per-program body of the loop in `mark_removed_programs`: skip
programs seen in this scrape, otherwise mark removed only after the
7-day safety buffer.  A missing `'id'` makes `update_item` raise inside
the `try`, which the code catches and logs, so no write happens. -/
def sweep_action (daysSince : String → Option Int) (now : String)
    (seen_urls : List String) (program : Dict) :
    Except PyError (Option Op) :=
  match alookup program "url" with
  | none => .error (.keyError "url")
  | some urlv =>
    if (match urlv with | .vstr u => decide (u ∈ seen_urls) | _ => false) then
      .ok none
    else if 7 ≤ days_since_last_seen daysSince program then
      .ok (match alookup program "id" with
           | none => none
           | some pid =>
              some (.updateItem collection_name pid (removal_payload now)))
    else
      .ok none

/-- `FoerdermittelScraper.mark_removed_programs` over the list of
active programs the backend returned. -/
def mark_removed_programs (daysSince : String → Option Int) (now : String)
    (seen_urls : List String) : List Dict → Except PyError (List Op)
  | [] => .ok []
  | program :: rest => do
    let a ← sweep_action daysSince now seen_urls program
    let others ← mark_removed_programs daysSince now seen_urls rest
    .ok (a.toList ++ others)

/-- The `program_data` dict that `scrape_program_detail` returns; the
HTML extraction results are abstracted as inputs.  `scraped_at` is
always the wall-clock time of this scrape. -/
def scrape_program_detail_data (url source_name : String)
    (title content meta_info external_urls : Val) (now : String) : Dict :=
  [("url", .vstr url),
   ("source_name", .vstr source_name),
   ("title", title),
   ("content", content),
   ("meta_info", meta_info),
   ("external_urls", external_urls),
   ("scraped_at", .vstr now)]

/-- The names defined in the body of class `DirectusClient`
(shared/directus_client.py). -/
def directusClientMethods : List String :=
  ["__init__", "login", "get_headers", "create_item",
   "get_item_by_hash", "update_item", "get_pending_items"]

/-- Python attribute resolution on an object: `AttributeError` when the
class defines no such name. -/
def pyGetattr {α : Type} (methods : List String) (name : String)
    (impl : α) : Except PyError α :=
  if name ∈ methods then .ok impl else .error (.attributeError name)

/-- `check_duplicate_or_changed` run against the concrete
`DirectusClient`: the call `self.directus_client.get_item_by_url(...)`
first resolves the attribute on the class.  `impl` is the behaviour the
method would have if it existed (the theorem holds for every `impl`). -/
def check_duplicate_or_changed_directus (sha256 : String → String)
    (impl : UrlLookup) (content url : String) :
    Except PyError ClassifyResult :=
  match pyGetattr directusClientMethods "get_item_by_url" impl with
  | .error e => .error e
  | .ok f => check_duplicate_or_changed sha256 (some f) content url

/-- `mark_removed_programs` run against the concrete `DirectusClient`:
`self.directus_client.get_active_programs(...)` first resolves the
attribute on the class. -/
def mark_removed_programs_directus (daysSince : String → Option Int)
    (now : String) (impl : String → String → Except PyError (List Dict))
    (source_name : String) (seen_urls : List String) :
    Except PyError (List Op) :=
  match pyGetattr directusClientMethods "get_active_programs" impl with
  | .error e => .error e
  | .ok f => do
    let programs ← f collection_name source_name
    mark_removed_programs daysSince now seen_urls programs

/-- The `significant_fields` allow-list of `detect_changes`
(foerdermittel_analyzer.py), field key paired with its human-readable
label, in source order. -/
def significant_fields : List (String × String) :=
  [("title", "Title"),
   ("funding_amount_min", "Min funding amount"),
   ("funding_amount_max", "Max funding amount"),
   ("application_deadline", "Application deadline"),
   ("funding_period_end", "Funding period end"),
   ("eligibility_criteria", "Eligibility criteria"),
   ("funding_rate", "Funding rate"),
   ("deadline_type", "Deadline type"),
   ("is_relevant", "Relevance status")]

/-- The `changes` list accumulated by the loop in `detect_changes`:
skip when both sides are None, record `"<label> changed"` when the
values differ. -/
def changed_labels (fields : List (String × String))
    (old_data new_data : Dict) : List String :=
  fields.filterMap fun fl =>
    let old_val := pyGet old_data fl.1
    let new_val := pyGet new_data fl.1
    if old_val = .vnull ∧ new_val = .vnull then none
    else if ¬ pyEq old_val new_val then some (fl.2 ++ " changed")
    else none

/-- `detect_changes(old_data, new_data)`: None when no significant
field changed, else the `"; "`-joined change labels. -/
def detect_changes (old_data new_data : Dict) : Option String :=
  let changes := changed_labels significant_fields old_data new_data
  if changes.isEmpty then none else some (String.intercalate "; " changes)

/-- The `new_version_data` dict built by `process_program_update` when
changes were detected: a copy of `new_structured_data` with `version`,
`change_summary`, `previous_version_id`, `requires_review` and
`status` assigned in source order. -/
def new_version_data (new_structured_data : Dict) (newVersion : Val)
    (change_summary : String) (existing_fid : Val) : Dict :=
  dset (dset (dset (dset (dset new_structured_data
    "version" newVersion)
    "change_summary" (.vstr change_summary))
    "previous_version_id" existing_fid)
    "requires_review" (.vbool true))
    "status" (.vstr "draft")

/-- The main path of `process_program_update` (a prior `foerdermittel`
record was found, `dry_run` false): the backend writes it issues.
`created_id` is the id the backend assigns to the created version. -/
def process_program_update_main (item_id existing_fid created_id : Val)
    (old_data new_structured_data : Dict) : Except PyError (List Op) :=
  match detect_changes old_data new_structured_data with
  | none =>
      .ok [.updateItem collection_name item_id
            [("processed", .vbool true),
             ("processing_status", .vstr "completed")]]
  | some change_summary => do
      let newVersion ← valAddOne (dgetD old_data "version" (.vint 1))
      let nvd := new_version_data new_structured_data newVersion
        change_summary existing_fid
      .ok [.createItem "foerdermittel" nvd,
           .updateItem collection_name item_id
             [("processed", .vbool true),
              ("processing_status", .vstr "completed"),
              ("foerdermittel_id", created_id)]]

/-- An entry of `URLCache.cache` (shared/directus_client.py). -/
structure CacheEntry where
  content : String
  timestamp : Int
deriving DecidableEq, Repr

/-- The in-memory state of `URLCache`. -/
abbrev Cache := List (String × CacheEntry)

/-- `URLCache.get(url)`: the returned content (None on miss or expiry)
and the cache state afterwards (an expired entry is deleted). -/
def urlcache_get (max_age_seconds now : Int) (cache : Cache)
    (url : String) : Option String × Cache :=
  match alookup cache url with
  | some entry =>
      if max_age_seconds < now - entry.timestamp then
        (none, adelete cache url)
      else
        (some entry.content, cache)
  | none => (none, cache)

theorem pyEq_vstr_iff (a b : String) :
    pyEq (.vstr a) (.vstr b) = true ↔ a = b := by
  simp [pyEq, Val.asNum]

/-- Claim C9: `URLCache.get(url)` returns the cached content exactly
when an entry for the url exists and `now - timestamp` is at most the
configured maximum age; an older entry is deleted from the cache and
None is returned; on a miss None is returned and the cache is not
modified. -/
theorem urlcache_get_spec (max_age now : Int) (cache : Cache)
    (url : String) :
    (∀ e, alookup cache url = some e →
      (now - e.timestamp ≤ max_age →
        urlcache_get max_age now cache url = (some e.content, cache)) ∧
      (max_age < now - e.timestamp →
        urlcache_get max_age now cache url = (none, adelete cache url) ∧
        alookup (adelete cache url) url = none)) ∧
    (alookup cache url = none →
      urlcache_get max_age now cache url = (none, cache)) := by
  refine ⟨fun e he => ⟨fun hle => ?_, fun hlt => ?_⟩, fun hnone => ?_⟩
  · simp [urlcache_get, he, not_lt.mpr hle]
  · exact ⟨by simp [urlcache_get, he, hlt], alookup_adelete_self cache url⟩
  · simp [urlcache_get, hnone]

theorem urlcache_get_spec_witness :
    urlcache_get 604800 1000 [("https://a.example", ⟨"cached page", 500⟩)]
      "https://a.example" =
      (some "cached page", [("https://a.example", ⟨"cached page", 500⟩)]) :=
  ((urlcache_get_spec 604800 1000
      [("https://a.example", ⟨"cached page", 500⟩)] "https://a.example").1
    ⟨"cached page", 500⟩ (by decide)).1 (by decide)

/-- Claim C7: when the backend read raises during classification, the
error propagates out of `check_duplicate_or_changed` and no status at
all (in particular not 'new') is produced. -/
theorem backend_read_failure_propagates (sha256 : String → String)
    (lookup : UrlLookup) (content url : String) (e : PyError)
    (he : lookup collection_name url = .error e) :
    check_duplicate_or_changed sha256 (some lookup) content url =
      .error e ∧
    ∀ r : ClassifyResult,
      check_duplicate_or_changed sha256 (some lookup) content url ≠
        .ok r := by
  have h1 : check_duplicate_or_changed sha256 (some lookup) content url =
      .error e := by
    simp [check_duplicate_or_changed, he]
  exact ⟨h1, fun r hr => by rw [h1] at hr; cases hr⟩

theorem backend_read_failure_propagates_witness :
    check_duplicate_or_changed (fun s => s)
      (some fun _ _ => .error (.backendError "connection refused"))
      "content" "https://a.example" =
      .error (.backendError "connection refused") :=
  (backend_read_failure_propagates (fun s => s)
    (fun _ _ => .error (.backendError "connection refused"))
    "content" "https://a.example" (.backendError "connection refused")
    rfl).1

/-- Claim C2: with a backend client configured,
`check_duplicate_or_changed(content, url)` looks the stored record up
by url (its result depends on the lookup only at this url); no record
gives ('new', None, None); a stored hash equal to the hash of the
content gives ('unchanged', id, stored hash); otherwise ('changed',
id, stored hash). -/
theorem check_duplicate_or_changed_contract (sha256 : String → String)
    (lookup : UrlLookup) (content url : String) :
    (∀ lookup' : UrlLookup,
       lookup collection_name url = lookup' collection_name url →
       check_duplicate_or_changed sha256 (some lookup) content url =
         check_duplicate_or_changed sha256 (some lookup') content url) ∧
    (lookup collection_name url = .ok none →
       check_duplicate_or_changed sha256 (some lookup) content url =
         .ok ⟨.statusNew, .vnull, .vnull⟩) ∧
    (∀ item : Dict, lookup collection_name url = .ok (some item) →
       item ≠ [] →
       ∀ pid, alookup item "id" = some pid →
       ∀ h, pyGet item "content_hash" = .vstr h →
       ((h = calculate_content_hash sha256 content →
          check_duplicate_or_changed sha256 (some lookup) content url =
            .ok ⟨.unchanged, pid, .vstr h⟩) ∧
        (h ≠ calculate_content_hash sha256 content →
          check_duplicate_or_changed sha256 (some lookup) content url =
            .ok ⟨.changed, pid, .vstr h⟩))) := by
  refine ⟨fun lookup' hagree => ?_, fun hnone => ?_,
    fun item hsome hne pid hpid h hh => ⟨fun heq => ?_, fun hne' => ?_⟩⟩
  · simp only [check_duplicate_or_changed, hagree]
  · simp [check_duplicate_or_changed, hnone]
  · have hp : pyEq (pyGet item "content_hash")
        (.vstr (calculate_content_hash sha256 content)) = true := by
      rw [hh, pyEq_vstr_iff]; exact heq
    simp [check_duplicate_or_changed, hsome, hne, hpid, hp, hh, heq]
    exact (pyEq_vstr_iff _ _).mpr rfl
  · have hp : pyEq (pyGet item "content_hash")
        (.vstr (calculate_content_hash sha256 content)) = false := by
      rw [hh]
      exact (Bool.eq_false_iff).mpr
        (fun hc => hne' ((pyEq_vstr_iff _ _).mp hc))
    simp [check_duplicate_or_changed, hsome, hne, hpid, hh]
    rw [hh] at hp
    simp [hp]

theorem check_duplicate_or_changed_contract_witness :
    check_duplicate_or_changed (fun s => s)
      (some fun _ u =>
        if u = "https://a.example" then
          .ok (some [("id", .vint 5), ("content_hash", .vstr "page body")])
        else .ok none)
      "page body" "https://a.example" =
      .ok ⟨.unchanged, .vint 5, .vstr "page body"⟩ :=
  (((check_duplicate_or_changed_contract (fun s => s) _ "page body"
      "https://a.example").2.2
    [("id", .vint 5), ("content_hash", .vstr "page body")] rfl
    (by decide) (.vint 5) (by decide) "page body" (by decide)).1 rfl)

/-- Claim C10: `DirectusClient` defines neither `get_item_by_url` nor
`get_active_programs`, so with a Directus client configured both
`check_duplicate_or_changed` and `mark_removed_programs` raise an
`AttributeError` on every input instead of completing. -/
theorem missing_client_methods_attribute_error :
    (∀ (sha256 : String → String) (impl : UrlLookup) (content url : String),
       check_duplicate_or_changed_directus sha256 impl content url =
         .error (.attributeError "get_item_by_url")) ∧
    (∀ (daysSince : String → Option Int) (now : String)
       (impl : String → String → Except PyError (List Dict))
       (source_name : String) (seen_urls : List String),
       mark_removed_programs_directus daysSince now impl source_name
         seen_urls = .error (.attributeError "get_active_programs")) := by
  have h1 : "get_item_by_url" ∉ directusClientMethods := by decide
  have h2 : "get_active_programs" ∉ directusClientMethods := by decide
  constructor
  · intro sha256 impl content url
    simp [check_duplicate_or_changed_directus, pyGetattr, h1]
  · intro daysSince now impl source_name seen_urls
    simp [mark_removed_programs_directus, pyGetattr, h2]

/-- Claim C3: an active program of the source whose url was not
observed in this scrape is marked `is_active=false`,
`processing_status='removed'` with `last_checked_at` refreshed when at
least 7 days passed since `last_seen_at`, or when `last_seen_at` is
missing or unparseable; with strictly fewer than 7 days it is left
untouched. -/
theorem mark_removed_safety_buffer (daysSince : String → Option Int)
    (now u : String) (pid : Val) (seen : List String) (program : Dict)
    (hurl : alookup program "url" = some (.vstr u))
    (hseen : u ∉ seen)
    (hid : alookup program "id" = some pid) :
    (∀ s d, alookup program "last_seen_at" = some (.vstr s) → s ≠ "" →
       daysSince s = some d →
       ((7 ≤ d → sweep_action daysSince now seen program =
          .ok (some (.updateItem collection_name pid
            (removal_payload now)))) ∧
        (d < 7 → sweep_action daysSince now seen program = .ok none))) ∧
    ((pyGet program "last_seen_at").truthy = false →
       sweep_action daysSince now seen program =
         .ok (some (.updateItem collection_name pid
           (removal_payload now)))) ∧
    (∀ s, alookup program "last_seen_at" = some (.vstr s) →
       daysSince s = none →
       sweep_action daysSince now seen program =
         .ok (some (.updateItem collection_name pid
           (removal_payload now)))) := by
  have hdays_falsy : (pyGet program "last_seen_at").truthy = false →
      days_since_last_seen daysSince program = 999 := by
    intro ht
    simp [days_since_last_seen, ht]
  refine ⟨fun s d hls hs hd => ?_, fun ht => ?_, fun s hls hnone => ?_⟩
  · have hdays : days_since_last_seen daysSince program = d := by
      simp [days_since_last_seen, pyGet, dgetD, hls, Val.truthy, hs, hd]
    constructor
    · intro h7
      simp [sweep_action, hurl, hseen, hdays, h7, hid]
    · intro h7
      simp [sweep_action, hurl, hseen, hdays, not_le.mpr h7]
  · simp [sweep_action, hurl, hseen, hdays_falsy ht, hid]
  · by_cases hs : s = ""
    · have ht : (pyGet program "last_seen_at").truthy = false := by
        simp [pyGet, dgetD, hls, hs, Val.truthy]
      simp [sweep_action, hurl, hseen, hdays_falsy ht, hid]
    · have hdays : days_since_last_seen daysSince program = 999 := by
        simp [days_since_last_seen, pyGet, dgetD, hls, Val.truthy, hs, hnone]
      simp [sweep_action, hurl, hseen, hdays, hid]

theorem mark_removed_safety_buffer_witness :
    sweep_action (fun _ => some 3) "2024-01-08T00:00:00"
      ["https://kept.example"]
      [("url", .vstr "https://gone.example"), ("id", .vint 7),
       ("last_seen_at", .vstr "2024-01-05T00:00:00")] = .ok none :=
  ((mark_removed_safety_buffer (fun _ => some 3) "2024-01-08T00:00:00"
      "https://gone.example" (.vint 7) ["https://kept.example"]
      [("url", .vstr "https://gone.example"), ("id", .vint 7),
       ("last_seen_at", .vstr "2024-01-05T00:00:00")]
      (by decide) (by decide) (by decide)).1
    "2024-01-05T00:00:00" 3 (by decide) (by decide) rfl).2 (by decide)

/-- Claim C6: the 'unchanged' branch of `save_to_directus` writes
exactly `last_checked_at`, `last_seen_at` and `check_count`, so every
other stored field (content_hash, previous_content_hash, raw_content,
scraped_at, processing_status, ...) keeps its value;
`previous_content_hash` is written neither there nor by the 'new'
branch, only by the 'changed' branch, which sets it to the prior hash
while `content_hash` becomes the new hash. -/
theorem unchanged_update_frame (now content_hash : String)
    (program_data stored : Dict) (existing_id previous_hash cc : Val)
    (existing_item : Option Dict)
    (hcc : check_count_next existing_item = .ok cc) :
    save_to_directus now program_data content_hash .unchanged existing_id
        previous_hash existing_item =
      .ok (.updateItem collection_name existing_id
        (unchanged_payload now cc)) ∧
    (unchanged_payload now cc).map Prod.fst =
      ["last_checked_at", "last_seen_at", "check_count"] ∧
    (∀ k, k ∉ ["last_checked_at", "last_seen_at", "check_count"] →
       alookup (applyUpdate stored (unchanged_payload now cc)) k =
         alookup stored k) ∧
    "previous_content_hash" ∉ (unchanged_payload now cc).map Prod.fst ∧
    "previous_content_hash" ∉
      (new_item_payload now program_data content_hash).map Prod.fst ∧
    save_to_directus now program_data content_hash .changed existing_id
        previous_hash existing_item =
      .ok (.updateItem collection_name existing_id
        (changed_payload now program_data content_hash previous_hash cc)) ∧
    alookup (changed_payload now program_data content_hash previous_hash cc)
        "previous_content_hash" = some previous_hash ∧
    alookup (changed_payload now program_data content_hash previous_hash cc)
        "content_hash" = some (.vstr content_hash) := by
  refine ⟨?_, rfl, fun k hk => ?_, by simp [unchanged_payload],
    by simp [new_item_payload], ?_, rfl, rfl⟩
  · simp only [save_to_directus, hcc]
    rfl
  · exact alookup_applyUpdate_not_mem stored (unchanged_payload now cc) k
      (by simpa [unchanged_payload] using hk)
  · simp only [save_to_directus, hcc]
    rfl

theorem unchanged_update_frame_witness :
    save_to_directus "2024-01-08T00:00:00" [] "newhash" .unchanged
        (.vint 5) (.vstr "oldhash")
        (some [("check_count", .vint 2)]) =
      .ok (.updateItem collection_name (.vint 5)
        (unchanged_payload "2024-01-08T00:00:00" (.vint 3))) :=
  (unchanged_update_frame "2024-01-08T00:00:00" "newhash" [] []
    (.vint 5) (.vstr "oldhash") (.vint 3)
    (some [("check_count", .vint 2)]) (by decide)).1

/-- Claim C8: the 'unchanged' and 'changed' writes of
`save_to_directus` store a `check_count` strictly greater than the
stored document's previous one (its successor), and a document created
as 'new' starts at `check_count = 1`. -/
theorem check_count_monotone (now content_hash : String)
    (program_data : Dict) (existing_id previous_hash : Val)
    (item : Dict) (c : Int)
    (hne : item ≠ [])
    (hcc : alookup item "check_count" = some (.vint c)) :
    save_to_directus now program_data content_hash .unchanged existing_id
        previous_hash (some item) =
      .ok (.updateItem collection_name existing_id
        (unchanged_payload now (.vint (c + 1)))) ∧
    alookup (unchanged_payload now (.vint (c + 1))) "check_count" =
      some (.vint (c + 1)) ∧
    save_to_directus now program_data content_hash .changed existing_id
        previous_hash (some item) =
      .ok (.updateItem collection_name existing_id
        (changed_payload now program_data content_hash previous_hash
          (.vint (c + 1)))) ∧
    alookup (changed_payload now program_data content_hash previous_hash
        (.vint (c + 1))) "check_count" = some (.vint (c + 1)) ∧
    c < c + 1 ∧
    save_to_directus now program_data content_hash .statusNew existing_id
        previous_hash (some item) =
      .ok (.createItem collection_name
        (new_item_payload now program_data content_hash)) ∧
    alookup (new_item_payload now program_data content_hash)
        "check_count" = some (.vint 1) := by
  have hnext : check_count_next (some item) = .ok (.vint (c + 1)) := by
    simp [check_count_next, hne, dgetD, hcc, valAddOne]
  refine ⟨by simp only [save_to_directus, hnext]; rfl, rfl,
    by simp only [save_to_directus, hnext]; rfl, rfl, by omega,
    by simp [save_to_directus], by simp [new_item_payload, alookup]⟩

theorem check_count_monotone_witness :
    save_to_directus "2024-01-08T00:00:00" [] "newhash" .unchanged
        (.vint 5) .vnull (some [("check_count", .vint 41)]) =
      .ok (.updateItem collection_name (.vint 5)
        (unchanged_payload "2024-01-08T00:00:00" (.vint 42))) :=
  (check_count_monotone "2024-01-08T00:00:00" "newhash" [] (.vint 5)
    .vnull [("check_count", .vint 41)] 41 (by decide) (by decide)).1

/-- For the allow-list iteration: the accumulated change labels are
exactly the labels of the fields whose values differ under Python
equality (both-None fields compare equal, so the explicit skip changes
nothing). -/
theorem changed_labels_eq_filter (fields : List (String × String))
    (old_data new_data : Dict) :
    changed_labels fields old_data new_data =
      (fields.filter fun fl =>
        !pyEq (pyGet old_data fl.1) (pyGet new_data fl.1)).map
        (fun fl => fl.2 ++ " changed") := by
  induction fields with
  | nil => rfl
  | cons fl rest ih =>
      by_cases hnull : pyGet old_data fl.1 = .vnull ∧
          pyGet new_data fl.1 = .vnull
      · have heq : pyEq (pyGet old_data fl.1) (pyGet new_data fl.1) = true := by
          rw [hnull.1, hnull.2]; rfl
        simp [changed_labels, List.filterMap_cons, List.filter_cons, hnull,
          heq, ih, changed_labels] at ih ⊢
        exact ih
      · by_cases hpe : pyEq (pyGet old_data fl.1) (pyGet new_data fl.1) = true
        · simp [changed_labels, List.filterMap_cons, List.filter_cons, hnull,
            hpe, ih] at ih ⊢
          exact ih
        · simp [changed_labels, List.filterMap_cons, List.filter_cons, hnull,
            hpe, ih] at ih ⊢
          exact ih

/-- Claim C5: `detect_changes(old, new)` returns None — and then
`process_program_update` creates no new version, only marking the
scraped item processed/completed — exactly when no allow-listed field
differs; otherwise the summary is the `"; "`-joined human-readable
labels of exactly the differing fields. -/
theorem detect_changes_allowlist (old_data new_structured_data : Dict)
    (item_id existing_fid created_id : Val) :
    (detect_changes old_data new_structured_data = none ↔
      ∀ p ∈ significant_fields,
        pyEq (pyGet old_data p.1) (pyGet new_structured_data p.1) = true) ∧
    (detect_changes old_data new_structured_data = none →
      process_program_update_main item_id existing_fid created_id
          old_data new_structured_data =
        .ok [.updateItem collection_name item_id
          [("processed", .vbool true),
           ("processing_status", .vstr "completed")]]) ∧
    (∀ cs, detect_changes old_data new_structured_data = some cs →
      cs = String.intercalate "; "
        ((significant_fields.filter fun p =>
            !pyEq (pyGet old_data p.1) (pyGet new_structured_data p.1)).map
          (fun p => p.2 ++ " changed"))) := by
  refine ⟨?_, fun hnone => ?_, fun cs hcs => ?_⟩
  · rw [detect_changes]
    simp only [changed_labels_eq_filter, List.isEmpty_iff]
    by_cases hf : (significant_fields.filter fun fl =>
        !pyEq (pyGet old_data fl.1) (pyGet new_structured_data fl.1)) = []
    · constructor
      · intro _ p hp
        have h := List.filter_eq_nil_iff.mp hf p hp
        simpa using h
      · intro _
        simp [hf]
    · constructor
      · intro h
        rw [if_neg (by simpa using hf)] at h
        cases h
      · intro hall
        exact absurd (List.filter_eq_nil_iff.mpr
          (fun p hp => by simp [hall p hp])) hf
  · simp [process_program_update_main, hnone]
  · rw [detect_changes] at hcs
    simp only [changed_labels_eq_filter] at hcs
    by_cases hf : ((significant_fields.filter fun fl =>
        !pyEq (pyGet old_data fl.1) (pyGet new_structured_data fl.1)).map
        (fun fl => fl.2 ++ " changed")) = []
    · simp [hf] at hcs
    · simp only [List.isEmpty_iff, if_neg hf, Option.some.injEq] at hcs
      exact hcs.symm

theorem detect_changes_allowlist_witness :
    process_program_update_main (.vint 9) (.vint 3) (.vint 4)
        [("title", .vstr "Same title")] [("title", .vstr "Same title")] =
      .ok [.updateItem collection_name (.vint 9)
        [("processed", .vbool true),
         ("processing_status", .vstr "completed")]] :=
  (detect_changes_allowlist [("title", .vstr "Same title")]
    [("title", .vstr "Same title")] (.vint 9) (.vint 3) (.vint 4)).2.1
    (by decide)

/-- Claim C4: when a significant change is detected, the created
version record carries every field of the new structured data except
that `version` becomes the old version + 1, `previous_version_id` the
old record id, `change_summary` the computed summary,
`requires_review` true and `status` 'draft' — regardless of the old
record's status (so also when it was 'published'). -/
theorem changed_version_record_fields (item_id existing_fid created_id : Val)
    (old_data new_structured_data : Dict) (cs : String) (v : Int)
    (hch : detect_changes old_data new_structured_data = some cs)
    (hv : alookup old_data "version" = some (.vint v)) :
    process_program_update_main item_id existing_fid created_id old_data
        new_structured_data =
      .ok [.createItem "foerdermittel"
            (new_version_data new_structured_data (.vint (v + 1)) cs
              existing_fid),
           .updateItem collection_name item_id
             [("processed", .vbool true),
              ("processing_status", .vstr "completed"),
              ("foerdermittel_id", created_id)]] ∧
    alookup (new_version_data new_structured_data (.vint (v + 1)) cs
        existing_fid) "version" = some (.vint (v + 1)) ∧
    alookup (new_version_data new_structured_data (.vint (v + 1)) cs
        existing_fid) "previous_version_id" = some existing_fid ∧
    alookup (new_version_data new_structured_data (.vint (v + 1)) cs
        existing_fid) "change_summary" = some (.vstr cs) ∧
    alookup (new_version_data new_structured_data (.vint (v + 1)) cs
        existing_fid) "requires_review" = some (.vbool true) ∧
    alookup (new_version_data new_structured_data (.vint (v + 1)) cs
        existing_fid) "status" = some (.vstr "draft") ∧
    (∀ k, k ∉ ["version", "change_summary", "previous_version_id",
        "requires_review", "status"] →
      alookup (new_version_data new_structured_data (.vint (v + 1)) cs
          existing_fid) k = alookup new_structured_data k) := by
  refine ⟨?_, ?_, ?_, ?_, ?_, ?_, fun k hk => ?_⟩
  · simp only [process_program_update_main, hch, dgetD, hv, Option.getD_some,
      valAddOne]
    rfl
  · rw [new_version_data, alookup_dset, if_neg (by decide), alookup_dset,
      if_neg (by decide), alookup_dset, if_neg (by decide), alookup_dset,
      if_neg (by decide), alookup_dset, if_pos rfl]
  · rw [new_version_data, alookup_dset, if_neg (by decide), alookup_dset,
      if_neg (by decide), alookup_dset, if_pos rfl]
  · rw [new_version_data, alookup_dset, if_neg (by decide), alookup_dset,
      if_neg (by decide), alookup_dset, if_neg (by decide), alookup_dset,
      if_pos rfl]
  · rw [new_version_data, alookup_dset, if_neg (by decide), alookup_dset,
      if_pos rfl]
  · rw [new_version_data, alookup_dset, if_pos rfl]
  · simp only [List.mem_cons, List.not_mem_nil, or_false, not_or] at hk
    obtain ⟨h1, h2, h3, h4, h5⟩ := hk
    rw [new_version_data, alookup_dset, if_neg (fun h => h5 h.symm),
      alookup_dset, if_neg (fun h => h4 h.symm),
      alookup_dset, if_neg (fun h => h3 h.symm),
      alookup_dset, if_neg (fun h => h2 h.symm),
      alookup_dset, if_neg (fun h => h1 h.symm)]

theorem changed_version_record_fields_witness :
    process_program_update_main (.vint 9) (.vint 3) (.vint 4)
        [("title", .vstr "Old title"), ("version", .vint 2),
         ("status", .vstr "published")]
        [("title", .vstr "New title"), ("status", .vstr "draft")] =
      .ok [.createItem "foerdermittel"
            (new_version_data
              [("title", .vstr "New title"), ("status", .vstr "draft")]
              (.vint 3) "Title changed" (.vint 3)),
           .updateItem collection_name (.vint 9)
             [("processed", .vbool true),
              ("processing_status", .vstr "completed"),
              ("foerdermittel_id", .vint 4)]] :=
  (changed_version_record_fields (.vint 9) (.vint 3) (.vint 4)
    [("title", .vstr "Old title"), ("version", .vint 2),
     ("status", .vstr "published")]
    [("title", .vstr "New title"), ("status", .vstr "draft")]
    "Title changed" 2 (by decide) (by decide)).1

/-- Claim C1 (code bug): the stored record holds the hash of the
serialized data of the first scrape; re-scraping the very same
unmodified page content on a later run is classified 'changed', not
'unchanged', because `scrape_program_detail` embeds the scrape
wall-clock time (`scraped_at`) in the serialized program data whose
hash is compared.  Evaluated here with an injective stand-in for the
SHA-256 digest. -/
theorem rescrape_same_content_classified_changed :
    (let sha : String → String := fun s => s
     let data1 := scrape_program_detail_data "https://example.org/p/1"
        "ExampleSource" (.vstr "Program Title") (.vstr "Program body text")
        .vnull .vnull "2024-01-01T10:00:00"
     let stored : Dict :=
       [("id", .vint 1),
        ("content_hash", .vstr (calculate_content_hash sha data1.dumps))]
     let client : UrlLookup := fun _ u =>
       if u = "https://example.org/p/1" then .ok (some stored) else .ok none
     let data2 := scrape_program_detail_data "https://example.org/p/1"
        "ExampleSource" (.vstr "Program Title") (.vstr "Program body text")
        .vnull .vnull "2024-01-08T10:00:00"
     (check_duplicate_or_changed sha (some client) data2.dumps
        "https://example.org/p/1").map ClassifyResult.status) =
    .ok .changed := by
  set_option maxRecDepth 10000 in decide

end EventScraper
